import Mathlib

/-!
Shallow embedding of the CloudVault metadata storage engine
(src/server/storage.ts, class JsonStorage and EnhancedJsonStorage) and of
the secured HTTP route handlers that wrap it (src/server/routes.ts).

Records are modelled as Lean structures; the mutable in-memory arrays of
the TypeScript classes become an explicit StoreState threaded through the
operations. Timestamps (Date objects / ISO strings) are modelled as opaque
natural numbers supplied by the caller as a now parameter. The uploads
directory on disk is modelled as the list of stored paths, so that
fs.unlinkSync becomes removal of a path from that list.

JavaScript records produced by object spread may carry fields beyond the
declared Folder type (the client patches isDeleted and deletedAt onto
folders and files, and FolderCard.tsx reads folder.isDeleted), so the
Folder and File structures carry isDeleted and deletedAt fields, absent
meaning false / null.
-/

namespace CloudVault

/-- Folder record as stored in the folders collection. -/
structure Folder where
  id : Nat
  name : String
  color : String
  parentId : Option Nat
  userId : Nat
  createdAt : Nat
  isDeleted : Bool
  deletedAt : Option Nat
deriving Repr, DecidableEq

/-- File record as stored in the files collection. -/
structure MFile where
  id : Nat
  name : String
  type : String
  size : Nat
  path : String
  folderId : Option Nat
  userId : Nat
  isShared : Bool
  sharedBy : Option String
  createdAt : Nat
  updatedAt : Nat
  isDeleted : Bool
  deletedAt : Option Nat
deriving Repr, DecidableEq

/-- Whole mutable state of a JsonStorage instance, plus the model of the
uploads directory (the list of paths currently existing on disk). -/
structure StoreState where
  folders : List Folder
  files : List MFile
  disk : List String
deriving Repr, DecidableEq

/-- Argument record of createFolder (InsertFolder of shared/schema.ts);
optional fields are absent when none. -/
structure InsertFolder where
  name : String
  color : Option String
  parentId : Option Nat
  userId : Nat
deriving Repr, DecidableEq

/-- Argument record of createFile (InsertFile of shared/schema.ts). -/
structure InsertFile where
  name : String
  type : String
  size : Nat
  path : String
  folderId : Option Nat
  userId : Nat
deriving Repr, DecidableEq

/-- JavaScript truthiness fallback for an optional string: the expression
x || d yields d when x is undefined, null or the empty string. -/
def jsOrStr (x : Option String) (d : String) : String :=
  match x with
  | none => d
  | some s => if s = "" then d else s

/-- JavaScript truthiness fallback for an optional number against null:
x || null yields null when x is undefined, null or 0. -/
def jsOrNullNat (x : Option Nat) : Option Nat :=
  match x with
  | none => none
  | some n => if n = 0 then none else some n

/-- Partial folder patch (Partial of Folder in the TypeScript sources):
an outer none means the field is absent from the patch object, so the
spread leaves the record field unchanged. -/
structure FolderPatch where
  id : Option Nat := none
  name : Option String := none
  color : Option String := none
  parentId : Option (Option Nat) := none
  userId : Option Nat := none
  createdAt : Option Nat := none
  isDeleted : Option Bool := none
  deletedAt : Option (Option Nat) := none
deriving Repr, DecidableEq

/-- Partial file patch (Partial of File). -/
structure FilePatch where
  id : Option Nat := none
  name : Option String := none
  type : Option String := none
  size : Option Nat := none
  path : Option String := none
  folderId : Option (Option Nat) := none
  userId : Option Nat := none
  isShared : Option Bool := none
  sharedBy : Option (Option String) := none
  createdAt : Option Nat := none
  updatedAt : Option Nat := none
  isDeleted : Option Bool := none
  deletedAt : Option (Option Nat) := none
deriving Repr, DecidableEq

/-- Object spread of a folder patch over a folder record. -/
def applyFolderPatch (f : Folder) (p : FolderPatch) : Folder :=
  { id := p.id.getD f.id
    name := p.name.getD f.name
    color := p.color.getD f.color
    parentId := p.parentId.getD f.parentId
    userId := p.userId.getD f.userId
    createdAt := p.createdAt.getD f.createdAt
    isDeleted := p.isDeleted.getD f.isDeleted
    deletedAt := p.deletedAt.getD f.deletedAt }

/-- Object spread of a file patch over a file record. -/
def applyFilePatch (f : MFile) (p : FilePatch) : MFile :=
  { id := p.id.getD f.id
    name := p.name.getD f.name
    type := p.type.getD f.type
    size := p.size.getD f.size
    path := p.path.getD f.path
    folderId := p.folderId.getD f.folderId
    userId := p.userId.getD f.userId
    isShared := p.isShared.getD f.isShared
    sharedBy := p.sharedBy.getD f.sharedBy
    createdAt := p.createdAt.getD f.createdAt
    updatedAt := p.updatedAt.getD f.updatedAt
    isDeleted := p.isDeleted.getD f.isDeleted
    deletedAt := p.deletedAt.getD f.deletedAt }

/-- findIndex followed by in-place replacement of the first match, the
shape shared by updateFolder and updateFile: returns the updated record
(none when no index matched) together with the new list. -/
def updateFirst (p : α → Bool) (g : α → α) : List α → Option α × List α
  | [] => (none, [])
  | x :: xs =>
    if p x then (some (g x), g x :: xs)
    else
      let r := updateFirst p g xs
      (r.1, x :: r.2)

/-- findIndex followed by splice of the first match, the shape shared by
deleteFile and the final step of deleteFolder: returns the removed record
(none when no index matched) together with the new list. -/
def removeFirst (p : α → Bool) : List α → Option α × List α
  | [] => (none, [])
  | x :: xs =>
    if p x then (some x, xs)
    else
      let r := removeFirst p xs
      (r.1, x :: r.2)

/-- JsonStorage.createFolder: id is the current array length plus one,
color and parentUd fall back through JavaScript truthiness, and the new
record is pushed at the end. Never fails. -/
def createFolder (s : StoreState) (ins : InsertFolder) (now : Nat) :
    Folder × StoreState :=
  let folder : Folder :=
    { id := s.folders.length + 1
      name := ins.name
      color := jsOrStr ins.color "#0A84FF"
      parentId := jsOrNullNat ins.parentId
      userId := ins.userId
      createdAt := now
      isDeleted := false
      deletedAt := none }
  (folder, { s with folders := s.folders ++ [folder] })

/-- JsonStorage.getFolderById: first folder with the given id. -/
def getFolderById (s : StoreState) (id : Nat) : Option Folder :=
  s.folders.find? (fun f => f.id == id)

/-- JsonStorage.getFoldersByParentId: folders whose parentId and userId
both match; no other condition is applied. -/
def getFoldersByParentId (s : StoreState) (parentId : Option Nat)
    (userId : Nat) : List Folder :=
  s.folders.filter (fun f => f.parentId == parentId && f.userId == userId)

/-- JsonStorage.updateFolder: spread the patch over the first folder with
the given id; returns none and leaves the state unchanged when the id is
absent. -/
def updateFolder (s : StoreState) (id : Nat) (p : FolderPatch) :
    Option Folder × StoreState :=
  let r := updateFirst (fun f => f.id == id) (fun f => applyFolderPatch f p)
    s.folders
  (r.1, { s with folders := r.2 })

/-- Files loop of JsonStorage.deleteFolder: every file whose folderId is
the given id is removed (removal is by file id, as in the source) and its
path unlinked from disk. -/
def removeFilesOfFolder (s : StoreState) (fid : Nat) : StoreState :=
  { s with
    files := s.files.filter (fun g =>
      !(s.files.any (fun f => f.folderId == some fid && f.id == g.id)))
    disk := s.disk.filter (fun pth =>
      !(s.files.any (fun f => f.folderId == some fid && f.path == pth))) }

/-- Subfolder loop of JsonStorage.deleteFolder. The TypeScript for..of
loop iterates the live this.folders array while the recursive calls
splice elements out of that same array, so the loop is modelled by an
explicit index into the current list: after a recursive deletion the
index still advances by one over the shortened list, exactly as the
JavaScript array iterator does. The iteration count is bounded by the
list length at loop entry, which never grows. -/
def folderLoop (del : StoreState → Nat → StoreState × Bool) :
    Nat → Nat → Nat → StoreState → StoreState
  | 0, _, _, s => s
  | n + 1, fid, k, s =>
    if h : k < s.folders.length then
      let folder := s.folders.get ⟨k, h⟩
      if folder.parentId == some fid then
        folderLoop del n fid (k + 1) (del s folder.id).1
      else
        folderLoop del n fid (k + 1) s
    else s

/-- JsonStorage.deleteFolder body, with explicit fuel standing for the
recursion depth available to the JavaScript call stack: delete the files
of the folder, run the subfolder loop, then splice the folder itself,
returning false when it was not found. -/
def deleteFolderAux : Nat → StoreState → Nat → StoreState × Bool
  | 0, s, _ => (s, false)
  | fuel + 1, s, fid =>
    let s1 := removeFilesOfFolder s fid
    let s2 := folderLoop (deleteFolderAux fuel) s1.folders.length fid 0 s1
    let r := removeFirst (fun f => f.id == fid) s2.folders
    match r.1 with
    | none => (s2, false)
    | some _ => ({ s2 with folders := r.2 }, true)

/-- JsonStorage.deleteFolder: the recursion depth needed on an acyclic
folder forest is at most the number of folders, so that much fuel plus
one reproduces every terminating run of the source. -/
def deleteFolder (s : StoreState) (fid : Nat) : StoreState × Bool :=
  deleteFolderAux (s.folders.length + 1) s fid

/-- JsonStorage.createFile: id is the current array length plus one, the
sharing fields are initialised, both timestamps are now, and the record
is pushed at the end. Never fails. -/
def createFile (s : StoreState) (ins : InsertFile) (now : Nat) :
    MFile × StoreState :=
  let file : MFile :=
    { id := s.files.length + 1
      name := ins.name
      type := ins.type
      size := ins.size
      path := ins.path
      folderId := ins.folderId
      userId := ins.userId
      isShared := false
      sharedBy := none
      createdAt := now
      updatedAt := now
      isDeleted := false
      deletedAt := none }
  (file, { s with files := s.files ++ [file] })

/-- JsonStorage.getFileById: first file with the given id. -/
def getFileById (s : StoreState) (id : Nat) : Option MFile :=
  s.files.find? (fun f => f.id == id)

/-- JsonStorage.getFilesByFolderId: files whose folderId and userId both
match; no other condition is applied. -/
def getFilesByFolderId (s : StoreState) (folderId : Option Nat)
    (userId : Nat) : List MFile :=
  s.files.filter (fun f => f.folderId == folderId && f.userId == userId)

/-- Comparator of JsonStorage.getRecentFiles, as the stable-sort order it
induces: the ECMAScript sort is stable, so a keeps its place before b
exactly when the comparator does not require b first, that is when
b.updatedAt is at most a.updatedAt. -/
def recentLe (a b : MFile) : Bool :=
  b.updatedAt ≤ a.updatedAt

/-- JsonStorage.getRecentFiles: the files of the user, stably sorted by
updatedAt descending, truncated to limit (default 8 at the call sites). -/
def getRecentFiles (s : StoreState) (userId : Nat) (limit : Nat) :
    List MFile :=
  (((s.files.filter (fun f => f.userId == userId)).mergeSort recentLe).take
    limit)

/-- JsonStorage.getSharedFiles: the files of the user with isShared truthy. -/
def getSharedFiles (s : StoreState) (userId : Nat) : List MFile :=
  s.files.filter (fun f => f.userId == userId && f.isShared)

/-- JsonStorage.updateFile: spread the patch over the first file with the
given id, then overwrite updatedAt with now (the spread order in the
source puts updatedAt last). -/
def updateFile (s : StoreState) (id : Nat) (p : FilePatch) (now : Nat) :
    Option MFile × StoreState :=
  let r := updateFirst (fun f => f.id == id)
    (fun f => { applyFilePatch f p with updatedAt := now }) s.files
  (r.1, { s with files := r.2 })

/-- JsonStorage.deleteFile: splice the first file with the given id and
unlink its path; false when the id is absent. -/
def deleteFile (s : StoreState) (id : Nat) : StoreState × Bool :=
  let r := removeFirst (fun f => f.id == id) s.files
  match r.1 with
  | none => (s, false)
  | some f =>
    ({ s with files := r.2, disk := s.disk.filter (fun pth => pth ≠ f.path) },
      true)

/-- Derived statistics record returned by getStorageStats. -/
structure StorageStats where
  usedSpace : Nat
  totalSpace : Nat
  percentUsed : ℚ
deriving Repr, DecidableEq

/-- Quota constant of JsonStorage.getStorageStats (100 TiB in bytes). -/
def totalSpaceConst : Nat := 1024 * 1024 * 1024 * 1024 * 100

/-- JsonStorage.getStorageStats: usedSpace sums the sizes of every file
record of the user, with no condition on isDeleted; percentUsed is the
exact ratio times 100 (division modelled in the rationals). -/
def getStorageStats (s : StoreState) (userId : Nat) : StorageStats :=
  let used := ((s.files.filter (fun f => f.userId == userId)).map
    (fun f => f.size)).sum
  { usedSpace := used
    totalSpace := totalSpaceConst
    percentUsed := ((used : ℚ) / (totalSpaceConst : ℚ)) * 100 }

/-- Size cap of EnhancedJsonStorage (MAX_FILE_SIZE, 10 MiB). -/
def maxFileSize : Nat := 10 * 1024 * 1024

/-- Mime whitelist of EnhancedJsonStorage (ALLOWED_MIME_TYPES). -/
def allowedMimeTypes : List String :=
  ["image/jpeg", "image/png", "application/pdf", "text/plain"]

/-- EnhancedJsonStorage.createFile: rejects oversized files and
non-whitelisted mime types by throwing before any record is pushed; a
throw is modelled as the none result paired with the unchanged state. The
stored path is generated from the clock and a random suffix in the
source, modelled by the freshPath argument. -/
def createFileEnhanced (s : StoreState) (ins : InsertFile)
    (freshPath : String) (now : Nat) : Option MFile × StoreState :=
  if ins.size > maxFileSize then (none, s)
  else if !(allowedMimeTypes.contains ins.type) then (none, s)
  else
    let file : MFile :=
      { id := s.files.length + 1
        name := ins.name
        type := ins.type
        size := ins.size
        path := freshPath
        folderId := ins.folderId
        userId := ins.userId
        isShared := false
        sharedBy := none
        createdAt := now
        updatedAt := now
        isDeleted := false
        deletedAt := none }
    (some file, { s with files := s.files ++ [file],
                         disk := s.disk ++ [freshPath] })

/-!
Secured route handlers of src/server/routes.ts (the variant with
ownership checks): each handler receives the authenticated user id, looks
the record up, answers 404 when it is absent or owned by someone else,
and for PATCH strips the userId and id fields from the request body
before handing it to the storage layer. A 404 (and the 500 fallback of
the delete handlers) is modelled as none; 204/200 as some. -/

/-- PATCH /api/folders/:id. -/
def patchFolderRoute (userId folderId : Nat) (body : FolderPatch)
    (s : StoreState) : Option Folder × StoreState :=
  match getFolderById s folderId with
  | none => (none, s)
  | some folder =>
    if folder.userId ≠ userId then (none, s)
    else updateFolder s folderId { body with userId := none, id := none }

/-- DELETE /api/folders/:id: some true is the 204 response, none covers
both the 404 and the defensive 500 when deleteFolder reports false. -/
def deleteFolderRoute (userId folderId : Nat) (s : StoreState) :
    Option Bool × StoreState :=
  match getFolderById s folderId with
  | none => (none, s)
  | some folder =>
    if folder.userId ≠ userId then (none, s)
    else
      let r := deleteFolder s folderId
      (some r.2, r.1)

/-- GET /api/files/:id. -/
def getFileRoute (userId fileId : Nat) (s : StoreState) : Option MFile :=
  match getFileById s fileId with
  | none => none
  | some f => if f.userId ≠ userId then none else some f

/-- PATCH /api/files/:id. -/
def patchFileRoute (userId fileId : Nat) (body : FilePatch) (now : Nat)
    (s : StoreState) : Option MFile × StoreState :=
  match getFileById s fileId with
  | none => (none, s)
  | some f =>
    if f.userId ≠ userId then (none, s)
    else updateFile s fileId { body with userId := none, id := none } now

/-- DELETE /api/files/:id. -/
def deleteFileRoute (userId fileId : Nat) (s : StoreState) :
    Option Bool × StoreState :=
  match getFileById s fileId with
  | none => (none, s)
  | some f =>
    if f.userId ≠ userId then (none, s)
    else
      let r := deleteFile s fileId
      (some r.2, r.1)

/-- The moveToTrash operation as the repository realises it:
handleMoveToTrash in FolderCard.tsx issues a PATCH for the single folder
with body setting isDeleted true and deletedAt to the current time. -/
def moveToTrashClient (userId folderId : Nat) (now : Nat)
    (s : StoreState) : Option Folder × StoreState :=
  patchFolderRoute userId folderId
    { isDeleted := some true, deletedAt := some (some now) } s

/-- The restore operation as the repository realises it: handleRestore in
FolderCard.tsx issues a PATCH for the single folder with body setting
isDeleted false and deletedAt null. -/
def restoreClient (userId folderId : Nat) (s : StoreState) :
    Option Folder × StoreState :=
  patchFolderRoute userId folderId
    { isDeleted := some false, deletedAt := some none } s

/-!
Helper lemmas about the two findIndex-based list primitives.
-/

/-- Result component of updateFirst is the image of the first match. -/
theorem updateFirst_fst (p : α → Bool) (g : α → α) (l : List α) :
    (updateFirst p g l).1 = (l.find? p).map g := by
  induction l with
  | nil => simp [updateFirst]
  | cons x xs ih =>
    by_cases h : p x
    · simp [updateFirst, h, List.find?_cons_of_pos]
    · simp [updateFirst, h, List.find?_cons_of_neg, ih]

/-- With no match, updateFirst leaves the list unchanged. -/
theorem updateFirst_snd_of_find?_none (p : α → Bool) (g : α → α)
    {l : List α} (h : l.find? p = none) : (updateFirst p g l).2 = l := by
  induction l with
  | nil => simp [updateFirst]
  | cons x xs ih =>
    by_cases hx : p x
    · simp [List.find?_cons_of_pos, hx] at h
    · rw [List.find?_cons_of_neg _ hx] at h
      simp [updateFirst, hx, ih h]

/-- When the replacement preserves the search predicate, searching the
updated list finds the image of the original first match. -/
theorem find?_updateFirst (p : α → Bool) (g : α → α) (l : List α)
    (hg : ∀ x, p (g x) = p x) :
    ((updateFirst p g l).2).find? p = (l.find? p).map g := by
  induction l with
  | nil => simp [updateFirst]
  | cons x xs ih =>
    by_cases h : p x
    · have hgx : p (g x) = true := by rw [hg]; exact h
      simp [updateFirst, h, List.find?_cons_of_pos, hgx]
    · simp [updateFirst, h, List.find?_cons_of_neg, ih]

/-- Elements that do not match the predicate survive updateFirst. -/
theorem mem_updateFirst_of_neg (p : α → Bool) (g : α → α) {l : List α}
    {x : α} (hx : x ∈ l) (hpx : p x = false) :
    x ∈ (updateFirst p g l).2 := by
  induction l with
  | nil => cases hx
  | cons y ys ih =>
    by_cases h : p y
    · rcases List.mem_cons.mp hx with rfl | hmem
      · rw [hpx] at h; cases h
      · simp only [updateFirst, h, if_pos]
        exact List.mem_cons_of_mem _ hmem
    · rcases List.mem_cons.mp hx with rfl | hmem
      · simp [updateFirst, h]
      · simp only [updateFirst, h]
        exact List.mem_cons_of_mem _ (ih hmem)

/-- A projection unchanged by the replacement function is unchanged by
updateFirst on the whole list. -/
theorem map_updateFirst (p : α → Bool) (g : α → α) (k : α → β)
    (l : List α) (hk : ∀ x, k (g x) = k x) :
    ((updateFirst p g l).2).map k = l.map k := by
  induction l with
  | nil => rfl
  | cons x xs ih =>
    by_cases h : p x
    · simp [updateFirst, h, hk]
    · simp [updateFirst, h, ih]

/-- The updateFirst primitive skips a prefix with no matches. -/
theorem updateFirst_append_of_neg (p : α → Bool) (g : α → α)
    {l₁ : List α} (l₂ : List α) (h : ∀ x ∈ l₁, p x = false) :
    updateFirst p g (l₁ ++ l₂) =
      ((updateFirst p g l₂).1, l₁ ++ (updateFirst p g l₂).2) := by
  induction l₁ with
  | nil => simp
  | cons x xs ih =>
    have hx : p x = false := h x (List.mem_cons_self x xs)
    have ih2 := ih (fun y hy => h y (List.mem_cons_of_mem x hy))
    simp [updateFirst, hx, ih2]

/-- The removeFirst primitive skips a prefix with no matches. -/
theorem removeFirst_append_of_neg (p : α → Bool) {l₁ : List α}
    (l₂ : List α) (h : ∀ x ∈ l₁, p x = false) :
    removeFirst p (l₁ ++ l₂) =
      ((removeFirst p l₂).1, l₁ ++ (removeFirst p l₂).2) := by
  induction l₁ with
  | nil => simp
  | cons x xs ih =>
    have hx : p x = false := h x (List.mem_cons_self x xs)
    have ih2 := ih (fun y hy => h y (List.mem_cons_of_mem x hy))
    simp [removeFirst, hx, ih2]

/-- The per-user size sum seen by getStorageStats depends only on the
sequence of (userId, size) pairs of the file list. -/
theorem sum_sizes_congr (u : Nat) (l₁ l₂ : List MFile)
    (h : l₁.map (fun f => (f.userId, f.size)) =
      l₂.map (fun f => (f.userId, f.size))) :
    ((l₁.filter (fun f => f.userId == u)).map (fun f => f.size)).sum =
      ((l₂.filter (fun f => f.userId == u)).map (fun f => f.size)).sum := by
  induction l₁ generalizing l₂ with
  | nil => cases l₂ with
    | nil => rfl
    | cons y ys => simp at h
  | cons x xs ih =>
    cases l₂ with
    | nil => simp at h
    | cons y ys =>
      simp only [List.map_cons, List.cons.injEq, Prod.mk.injEq] at h
      obtain ⟨⟨hu, hs⟩, ht⟩ := h
      by_cases hx : x.userId == u
      · have hy : y.userId == u := by rw [← hu]; exact hx
        simp [List.filter_cons, hx, hy, hs, ih ys ht]
      · have hy : (y.userId == u) = false := by
          rw [← hu]; exact Bool.eq_false_iff.mpr hx
        simp [List.filter_cons, hx, hy, ih ys ht]

/-!
Concrete fixtures used by the per-claim counterexamples and witnesses.
-/

/-- Empty store, the state of a fresh instance before any operation. -/
def emptyStore : StoreState := ⟨[], [], []⟩

def c4TrashedFolder : Folder :=
  ⟨1, "old", "#0A84FF", none, 1, 0, true, some 3⟩

def c4TrashedFile : MFile :=
  ⟨1, "old.txt", "text/plain", 4, "p1", none, 1, false, none, 0, 0, true,
    some 3⟩

def c4State : StoreState := ⟨[c4TrashedFolder], [c4TrashedFile], []⟩

def c5Root : Folder := ⟨1, "root", "#0A84FF", none, 7, 0, false, none⟩

def c5Child2 : Folder := ⟨2, "c2", "#0A84FF", some 1, 7, 0, false, none⟩

def c5Child3 : Folder := ⟨3, "c3", "#0A84FF", some 1, 7, 0, false, none⟩

def c5State : StoreState := ⟨[c5Root, c5Child2, c5Child3], [], []⟩

def c7InsA : InsertFile := ⟨"a", "text/plain", 1, "pa", none, 1⟩

def c7InsB : InsertFile := ⟨"b", "text/plain", 1, "pb", none, 1⟩

def c7InsC : InsertFile := ⟨"c", "text/plain", 1, "pc", none, 1⟩

def c7s1 : StoreState := (createFile emptyStore c7InsA 0).2

def c7s2 : StoreState := (createFile c7s1 c7InsB 1).2

def c7s3 : StoreState := (deleteFile c7s2 1).1

def c10BigIns : InsertFile :=
  ⟨"big.bin", "image/png", 10485761, "q", none, 1⟩

/-- C4, counterexample: getFoldersByParentId and getFilesByFolderId do
return trashed entries — a folder and a file with isDeleted true appear
in the listings, against the claim that trashed items are never
returned. -/
theorem c4_counterexample :
    (∃ f ∈ getFoldersByParentId c4State none 1, f.isDeleted = true) ∧
    (∃ x ∈ getFilesByFolderId c4State none 1, x.isDeleted = true) := by
  decide

/-- C4, amended: the listing operations return exactly the records whose
parent (resp. folder) and owner match, with no condition on isDeleted, so
trashed entries are listed along with active ones. -/
theorem c4_listing_ignores_trash (s : StoreState) (pid : Option Nat)
    (uid : Nat) (f : Folder) (x : MFile) :
    (f ∈ getFoldersByParentId s pid uid ↔
      f ∈ s.folders ∧ f.parentId = pid ∧ f.userId = uid) ∧
    (x ∈ getFilesByFolderId s pid uid ↔
      x ∈ s.files ∧ x.folderId = pid ∧ x.userId = uid) := by
  constructor
  · simp [getFoldersByParentId, List.mem_filter, and_assoc]
  · simp [getFilesByFolderId, List.mem_filter, and_assoc]

/-- C4, witness: the amended characterisation applied to the concrete
trashed folder of the fixture state. -/
theorem c4_witness :
    c4TrashedFolder ∈ getFoldersByParentId c4State none 1 :=
  ((c4_listing_ignores_trash c4State none 1 c4TrashedFolder
    c4TrashedFile).1).mpr (by decide)

/-- C5, code bug: deleting folder 1, which owns adjacent subfolders 2 and
3, reports success but leaves descendant folder 3 in the store with a
dangling parentId, because the subfolder loop of JsonStorage.deleteFolder
iterates the live array that its recursive calls splice, skipping the
element that slides into the place of each removed child. -/
theorem c5_delete_folder_skips_adjacent_sibling :
    deleteFolderRoute 7 1 c5State = (some true, ⟨[c5Child3], [], []⟩) ∧
    c5Child3.parentId = some 1 := by decide

/-- C6, counterexample: createFolder accepts an empty name together with
a parentId that resolves to no folder at all, and creates the record —
against the claim that it fails with ValidationError or NotFoundError and
creates nothing. -/
theorem c6_counterexample :
    (createFolder emptyStore ⟨"", none, some 99, 1⟩ 0).2.folders.length
      = 1 ∧
    (createFolder emptyStore ⟨"", none, some 99, 1⟩ 0).1.name = "" ∧
    (createFolder emptyStore ⟨"", none, some 99, 1⟩ 0).1.parentId
      = some 99 ∧
    getFolderById emptyStore 99 = none := by decide

/-- C6, amended: createFolder performs no validation at all — for every
input, including an empty name and a parentId that references no existing
folder, it appends exactly one new folder carrying the requested name,
owner and (nonzero) parent, with id equal to the collection length plus
one. -/
theorem c6_create_folder_unvalidated (s : StoreState) (ins : InsertFolder)
    (now : Nat) :
    (createFolder s ins now).2.folders =
      s.folders ++ [(createFolder s ins now).1] ∧
    (createFolder s ins now).1.name = ins.name ∧
    (createFolder s ins now).1.userId = ins.userId ∧
    (createFolder s ins now).1.id = s.folders.length + 1 ∧
    (∀ b, ins.parentId = some b → b ≠ 0 →
      (createFolder s ins now).1.parentId = some b) := by
  refine ⟨rfl, rfl, rfl, rfl, ?_⟩
  intro b hb hb0
  simp [createFolder, jsOrNullNat, hb, hb0]

/-- C6, witness: the amended statement applied to the concrete unvalidated
input of the counterexample. -/
theorem c6_witness :
    (createFolder emptyStore ⟨"", none, some 99, 1⟩ 0).1.parentId
      = some 99 :=
  (c6_create_folder_unvalidated emptyStore ⟨"", none, some 99, 1⟩ 0).2.2.2.2
    99 rfl (by decide)

/-- C7, counterexample: after creating files 1 and 2 and hard-deleting
file 1, the next createFile allocates id 2 again — an id previously
allocated (and still held by the surviving second file), against the
claim that ids are never reused. -/
theorem c7_counterexample :
    (createFile c7s3 c7InsC 2).1.id = 2 ∧
    (createFile c7s1 c7InsB 1).1.id = 2 ∧
    (∃ g ∈ c7s3.files, g.id = 2) := by decide

/-- C7, amended: JsonStorage allocates id as the current collection
length plus one for both folders and files; the fresh id avoids every
existing id only while all existing ids are at most the collection length
(as when nothing was ever deleted), and after a deletion it can collide
with a previously allocated id. -/
theorem c7_id_allocation_length_based (s : StoreState)
    (insFo : InsertFolder) (insFi : InsertFile) (now : Nat) :
    (createFolder s insFo now).1.id = s.folders.length + 1 ∧
    (createFile s insFi now).1.id = s.files.length + 1 ∧
    ((∀ g ∈ s.files, g.id ≤ s.files.length) →
      ∀ g ∈ s.files, g.id ≠ (createFile s insFi now).1.id) := by
  refine ⟨rfl, rfl, ?_⟩
  intro h g hg
  have hle := h g hg
  simp only [createFile]
  omega

/-- C7, witness: the freshness clause of the amended statement applied to
a store whose file ids are exactly 1 and 2. -/
theorem c7_witness :
    ∀ g ∈ c7s2.files, g.id ≠ (createFile c7s2 c7InsC 2).1.id :=
  (c7_id_allocation_length_based c7s2 ⟨"n", none, none, 1⟩ c7InsC 2).2.2
    (by decide)

/-- C10: EnhancedJsonStorage.createFile throws (modelled as the none
result with the state unchanged, so no record is added) on every input
whose size exceeds 10485760 bytes or whose mime type is outside the
whitelist of image/jpeg, image/png, application/pdf, text/plain. -/
theorem c10_enhanced_create_file_rejects (s : StoreState)
    (ins : InsertFile) (freshPath : String) (now : Nat)
    (h : ins.size > 10485760 ∨ ins.type ∉ allowedMimeTypes) :
    createFileEnhanced s ins freshPath now = (none, s) := by
  rcases h with h | h
  · have hs : ins.size > maxFileSize := by
      simpa [maxFileSize] using h
    simp [createFileEnhanced, hs]
  · have hc : allowedMimeTypes.contains ins.type = false := by
      simpa using h
    by_cases hs : ins.size > maxFileSize
    · simp [createFileEnhanced, hs]
    · simp only [createFileEnhanced, hc, if_neg hs, Bool.not_false, if_pos]

/-- C10, witness: a 10485761-byte upload is rejected and the store stays
empty. -/
theorem c10_witness :
    createFileEnhanced emptyStore c10BigIns "q" 0 = (none, emptyStore) :=
  c10_enhanced_create_file_rejects emptyStore c10BigIns "q" 0
    (Or.inl (by decide))

/-!
Helper lemmas about the folder patch route.
-/

/-- When the folder resolves and is owned by the caller, the patch route
reduces to the storage update with the ownership fields stripped. -/
theorem patchFolderRoute_found (s : StoreState) (u fid : Nat)
    (body : FolderPatch) (f : Folder)
    (hf : getFolderById s fid = some f) (hu : f.userId = u) :
    patchFolderRoute u fid body s =
      updateFolder s fid { body with userId := none, id := none } := by
  simp [patchFolderRoute, hf, hu]

/-- When the folder resolves, updateFolder returns the patched first
match and rewrites the folder list through updateFirst. -/
theorem updateFolder_found (s : StoreState) (fid : Nat) (p : FolderPatch)
    (f : Folder) (hf : getFolderById s fid = some f) :
    updateFolder s fid p =
      (some (applyFolderPatch f p),
        { s with folders := (updateFirst (fun g => g.id == fid)
            (fun g => applyFolderPatch g p) s.folders).2 }) := by
  rw [getFolderById] at hf
  have h1 := updateFirst_fst (fun g => g.id == fid)
    (fun g => applyFolderPatch g p) s.folders
  simp [updateFolder, h1, hf]

/-- The folder patch never changes the id field when the patch carries
none there, so the search predicate of the update is preserved. -/
theorem applyFolderPatch_beq_id (p : FolderPatch) (hid : p.id = none)
    (fid : Nat) : ∀ x : Folder, ((applyFolderPatch x p).id == fid)
      = (x.id == fid) := by
  intro x
  simp [applyFolderPatch, hid]

/-- Fixtures for C1: folder F with child folder C and file X inside C,
all owned by user 1. -/
def c1F : Folder := ⟨1, "F", "#0A84FF", none, 1, 0, false, none⟩

def c1C : Folder := ⟨2, "C", "#0A84FF", some 1, 1, 0, false, none⟩

def c1X : MFile :=
  ⟨1, "x.txt", "text/plain", 5, "px", some 2, 1, false, none, 0, 0, false,
    none⟩

def c1State : StoreState := ⟨[c1F, c1C], [c1X], ["px"]⟩

/-- C1, counterexample: moving folder F (id 1) to trash marks only F;
its child folder C (id 2) and the file X inside C keep isDeleted false,
so the three records do not all report isDeleted true as claimed. -/
theorem c1_counterexample :
    getFolderById (moveToTrashClient 1 1 5 c1State).2 1 =
      some { c1F with isDeleted := true, deletedAt := some 5 } ∧
    getFolderById (moveToTrashClient 1 1 5 c1State).2 2 = some c1C ∧
    c1C.isDeleted = false ∧
    getFileById (moveToTrashClient 1 1 5 c1State).2 1 = some c1X ∧
    c1X.isDeleted = false ∧
    ¬ (∀ g ∈ (moveToTrashClient 1 1 5 c1State).2.folders,
        g.isDeleted = true) := by decide

/-- C1, amended: the moveToTrash realised by the repository (a PATCH of
the single folder) sets isDeleted and deletedAt on the target folder
only — every other folder and every file is untouched — and the restore
PATCH likewise resets only the target folder. -/
theorem c1_trash_and_restore_touch_only_target (s : StoreState)
    (u fid t : Nat) (f : Folder) (hf : getFolderById s fid = some f)
    (hu : f.userId = u) :
    (moveToTrashClient u fid t s).1 =
      some { f with isDeleted := true, deletedAt := some t } ∧
    (moveToTrashClient u fid t s).2.files = s.files ∧
    (moveToTrashClient u fid t s).2.disk = s.disk ∧
    getFolderById (moveToTrashClient u fid t s).2 fid =
      some { f with isDeleted := true, deletedAt := some t } ∧
    (∀ g ∈ s.folders, g.id ≠ fid →
      g ∈ (moveToTrashClient u fid t s).2.folders) ∧
    getFolderById (restoreClient u fid (moveToTrashClient u fid t s).2).2
        fid = some { f with isDeleted := false, deletedAt := none } ∧
    (restoreClient u fid (moveToTrashClient u fid t s).2).2.files =
      s.files ∧
    (∀ g ∈ s.folders, g.id ≠ fid →
      g ∈ (restoreClient u fid (moveToTrashClient u fid t s).2).2.folders)
    := by
  have hstep1 : moveToTrashClient u fid t s =
      updateFolder s fid
        { isDeleted := some true, deletedAt := some (some t),
          userId := none, id := none } :=
    patchFolderRoute_found s u fid _ f hf hu
  have hupd := updateFolder_found s fid
    { isDeleted := some true, deletedAt := some (some t),
      userId := none, id := none } f hf
  have hval : applyFolderPatch f
      { isDeleted := some true, deletedAt := some (some t),
        userId := none, id := none } =
      { f with isDeleted := true, deletedAt := some t } := by
    simp [applyFolderPatch]
  set s1 := (moveToTrashClient u fid t s).2 with hs1
  have hs1eq : s1 = { s with folders :=
      (updateFirst (fun g => g.id == fid)
        (fun g => applyFolderPatch g
          { isDeleted := some true, deletedAt := some (some t),
            userId := none, id := none }) s.folders).2 } := by
    rw [hs1, hstep1, hupd]
  have hfind1 : getFolderById s1 fid =
      some { f with isDeleted := true, deletedAt := some t } := by
    rw [hs1eq, getFolderById]
    rw [getFolderById] at hf
    rw [find?_updateFirst _ _ _ (applyFolderPatch_beq_id _ rfl fid), hf]
    simp [hval]
  have hmem1 : ∀ g ∈ s.folders, g.id ≠ fid → g ∈ s1.folders := by
    intro g hg hne
    rw [hs1eq]
    exact mem_updateFirst_of_neg _ _ hg (by simp [hne])
  refine ⟨by rw [hstep1, hupd, hval], by rw [hs1eq], by rw [hs1eq],
    hfind1, hmem1, ?_, ?_, ?_⟩
  · have hstep2 : restoreClient u fid s1 =
        updateFolder s1 fid
          { isDeleted := some false, deletedAt := some none,
            userId := none, id := none } :=
      patchFolderRoute_found s1 u fid _ _ hfind1 hu
    have hupd2 := updateFolder_found s1 fid
      { isDeleted := some false, deletedAt := some none,
        userId := none, id := none } _ hfind1
    rw [hstep2, hupd2, getFolderById]
    rw [getFolderById] at hfind1
    rw [find?_updateFirst _ _ _ (applyFolderPatch_beq_id _ rfl fid),
      hfind1]
    simp [applyFolderPatch]
  · have hstep2 : restoreClient u fid s1 =
        updateFolder s1 fid
          { isDeleted := some false, deletedAt := some none,
            userId := none, id := none } :=
      patchFolderRoute_found s1 u fid _ _ hfind1 hu
    have hupd2 := updateFolder_found s1 fid
      { isDeleted := some false, deletedAt := some none,
        userId := none, id := none } _ hfind1
    rw [hstep2, hupd2]
    rw [hs1eq]
  · intro g hg hne
    have hstep2 : restoreClient u fid s1 =
        updateFolder s1 fid
          { isDeleted := some false, deletedAt := some none,
            userId := none, id := none } :=
      patchFolderRoute_found s1 u fid _ _ hfind1 hu
    have hupd2 := updateFolder_found s1 fid
      { isDeleted := some false, deletedAt := some none,
        userId := none, id := none } _ hfind1
    rw [hstep2, hupd2]
    exact mem_updateFirst_of_neg _ _ (hmem1 g hg hne) (by simp [hne])

/-- C1, witness: the amended statement applied to the fixture state,
trashing folder 1 at time 5. -/
theorem c1_witness :
    getFolderById (moveToTrashClient 1 1 5 c1State).2 1 =
      some { c1F with isDeleted := true, deletedAt := some 5 } :=
  (c1_trash_and_restore_touch_only_target c1State 1 1 5 c1F (by decide)
    rfl).2.2.2.1

/-- C2: ownership isolation at the route layer — whenever no folder
(resp. file) with the requested id is owned by the acting user, the
patch, delete and get handlers answer not-found and leave the store
untouched; moreover a patch can never change the owner of any record,
because the handlers strip the id and userId fields from the body before
the storage merge. -/
theorem c2_ownership_isolation (s : StoreState) (u2 foId fiId : Nat)
    (fb : FolderPatch) (gb : FilePatch) (now : Nat) :
    ((∀ g ∈ s.folders, g.id = foId → g.userId ≠ u2) →
      patchFolderRoute u2 foId fb s = (none, s) ∧
      deleteFolderRoute u2 foId s = (none, s)) ∧
    ((∀ g ∈ s.files, g.id = fiId → g.userId ≠ u2) →
      getFileRoute u2 fiId s = none ∧
      patchFileRoute u2 fiId gb now s = (none, s) ∧
      deleteFileRoute u2 fiId s = (none, s)) ∧
    (patchFolderRoute u2 foId fb s).2.folders.map
        (fun f => (f.id, f.userId)) =
      s.folders.map (fun f => (f.id, f.userId)) ∧
    (patchFileRoute u2 fiId gb now s).2.files.map
        (fun f => (f.id, f.userId)) =
      s.files.map (fun f => (f.id, f.userId)) := by
  refine ⟨?_, ?_, ?_, ?_⟩
  · intro H
    cases h : getFolderById s foId with
    | none => simp [patchFolderRoute, deleteFolderRoute, h]
    | some g =>
      rw [getFolderById] at h
      have hid : g.id = foId := by
        have := List.find?_some h
        simpa using this
      have hne : g.userId ≠ u2 :=
        H g (List.mem_of_find?_eq_some h) hid
      constructor
      · simp [patchFolderRoute, getFolderById, h, hne]
      · simp [deleteFolderRoute, getFolderById, h, hne]
  · intro H
    cases h : getFileById s fiId with
    | none => simp [getFileRoute, patchFileRoute, deleteFileRoute, h]
    | some g =>
      rw [getFileById] at h
      have hid : g.id = fiId := by
        have := List.find?_some h
        simpa using this
      have hne : g.userId ≠ u2 :=
        H g (List.mem_of_find?_eq_some h) hid
      refine ⟨?_, ?_, ?_⟩
      · simp [getFileRoute, getFileById, h, hne]
      · simp [patchFileRoute, getFileById, h, hne]
      · simp [deleteFileRoute, getFileById, h, hne]
  · cases h : getFolderById s foId with
    | none => simp [patchFolderRoute, h]
    | some g =>
      by_cases ho : g.userId = u2
      · have := patchFolderRoute_found s u2 foId fb g h ho
        rw [this, updateFolder]
        exact map_updateFirst _ _ _ _ (fun x => by simp [applyFolderPatch])
      · simp [patchFolderRoute, h, ho]
  · cases h : getFileById s fiId with
    | none => simp [patchFileRoute, h]
    | some g =>
      by_cases ho : g.userId = u2
      · simp only [patchFileRoute, h, ho, ne_eq, not_true_eq_false,
          if_neg, updateFile]
        exact map_updateFirst _ _ _ _ (fun x => by simp [applyFilePatch])
      · simp [patchFileRoute, h, ho]

/-- Fixture for C2: one folder and one file, both owned by user 1, acted
on by user 2. -/
def c2State : StoreState :=
  ⟨[⟨1, "mine", "#0A84FF", none, 1, 0, false, none⟩],
    [⟨1, "m.txt", "text/plain", 3, "pm", none, 1, false, none, 0, 0,
      false, none⟩], ["pm"]⟩

/-- C2, witness: user 2 asking for the folder and file of user 1 gets
not-found on every handler and the store is unchanged. -/
theorem c2_witness :
    (patchFolderRoute 2 1 { name := some "stolen", userId := some 2 }
        c2State = (none, c2State) ∧
      deleteFolderRoute 2 1 c2State = (none, c2State)) ∧
    (getFileRoute 2 1 c2State = none ∧
      patchFileRoute 2 1 { userId := some 2 } 9 c2State =
        (none, c2State) ∧
      deleteFileRoute 2 1 c2State = (none, c2State)) :=
  ⟨(c2_ownership_isolation c2State 2 1 1
      { name := some "stolen", userId := some 2 } { userId := some 2 }
      9).1 (by decide),
    (c2_ownership_isolation c2State 2 1 1
      { name := some "stolen", userId := some 2 } { userId := some 2 }
      9).2.1 (by decide)⟩

/-- Fixture for C3: folder B (id 2) is a child, hence a descendant, of
folder A (id 1). -/
def c3A : Folder := ⟨1, "A", "#0A84FF", none, 1, 0, false, none⟩

def c3B : Folder := ⟨2, "B", "#0A84FF", some 1, 1, 0, false, none⟩

def c3State : StoreState := ⟨[c3A, c3B], [], []⟩

/-- C3, counterexample: reparenting folder A (id 1) under its descendant
B (id 2) does not fail — the patch route answers with the updated folder
— and afterwards A.parentId is 2 while B.parentId is still 1, a cycle in
the parent relation. -/
theorem c3_counterexample :
    (patchFolderRoute 1 1 { parentId := some (some 2) } c3State).1 =
      some { c3A with parentId := some 2 } ∧
    getFolderById
        (patchFolderRoute 1 1 { parentId := some (some 2) } c3State).2 1 =
      some { c3A with parentId := some 2 } ∧
    getFolderById
        (patchFolderRoute 1 1 { parentId := some (some 2) } c3State).2 2 =
      some c3B ∧
    c3B.parentId = some 1 := by decide

/-- C3, amended: updateFolder applies a reparenting patch with no cycle
check whatsoever — for every target parent b, including any descendant of
the patched folder, the operation succeeds and stores parentId = b, so
the parent relation is free to become cyclic. -/
theorem c3_reparent_unchecked (s : StoreState) (u a b : Nat) (f : Folder)
    (hf : getFolderById s a = some f) (hu : f.userId = u) :
    (patchFolderRoute u a { parentId := some (some b) } s).1 =
      some { f with parentId := some b } ∧
    getFolderById
        (patchFolderRoute u a { parentId := some (some b) } s).2 a =
      some { f with parentId := some b } := by
  have hstep : patchFolderRoute u a { parentId := some (some b) } s =
      updateFolder s a
        { parentId := some (some b), userId := none, id := none } :=
    patchFolderRoute_found s u a _ f hf hu
  have hupd := updateFolder_found s a
    { parentId := some (some b), userId := none, id := none } f hf
  have hval : applyFolderPatch f
      { parentId := some (some b), userId := none, id := none } =
      { f with parentId := some b } := by
    simp [applyFolderPatch]
  constructor
  · rw [hstep, hupd, hval]
  · rw [hstep, hupd, getFolderById]
    rw [getFolderById] at hf
    rw [find?_updateFirst _ _ _ (applyFolderPatch_beq_id _ rfl a), hf]
    simp [hval]

/-- C3, witness: the amended statement applied to the fixture, moving A
under its own child B. -/
theorem c3_witness :
    (patchFolderRoute 1 1 { parentId := some (some 2) } c3State).1 =
      some { c3A with parentId := some 2 } :=
  (c3_reparent_unchecked c3State 1 1 2 c3A (by decide) rfl).1

/-- The comparator order of getRecentFiles is transitive. -/
theorem recentLe_trans : ∀ a b c : MFile, recentLe a b = true →
    recentLe b c = true → recentLe a c = true := by
  intro a b c hab hbc
  simp only [recentLe, decide_eq_true_eq] at *
  omega

/-- The comparator order of getRecentFiles is total. -/
theorem recentLe_total : ∀ a b : MFile,
    (recentLe a b || recentLe b a) = true := by
  intro a b
  simp only [recentLe, Bool.or_eq_true, decide_eq_true_eq]
  omega

def c8t1 : MFile :=
  ⟨1, "t1", "text/plain", 1, "q1", none, 1, false, none, 0, 10, false,
    none⟩

def c8t2 : MFile :=
  ⟨2, "t2", "text/plain", 1, "q2", none, 1, false, none, 0, 10, false,
    none⟩

def c8TieState : StoreState := ⟨[], [c8t1, c8t2], []⟩

def c8fa : MFile :=
  ⟨1, "A", "text/plain", 1, "qa", none, 1, false, none, 0, 1, false,
    none⟩

def c8fb : MFile :=
  ⟨2, "B", "text/plain", 1, "qb", none, 1, false, none, 0, 2, false,
    none⟩

def c8fc : MFile :=
  ⟨3, "C", "text/plain", 1, "qc", none, 1, false, none, 0, 3, false,
    none⟩

def c8Scenario : StoreState := ⟨[], [c8fa, c8fb, c8fc], []⟩

/-- C8, counterexample: two files share updatedAt = 10 and are stored in
id order 1 then 2; getRecentFiles keeps them in stored order — a tie is
NOT broken by id descending, which would have produced the reversed
list. -/
theorem c8_counterexample :
    getRecentFiles c8TieState 1 2 = [c8t1, c8t2] ∧
    c8t1.updatedAt = c8t2.updatedAt ∧
    c8t1.id = 1 ∧ c8t2.id = 2 ∧
    getRecentFiles c8TieState 1 2 ≠ [c8t2, c8t1] := by
  have h : getRecentFiles c8TieState 1 2 = [c8t1, c8t2] := by
    simp [getRecentFiles, c8TieState, List.mergeSort, recentLe, c8t1,
      c8t2]
  refine ⟨h, rfl, rfl, rfl, ?_⟩
  rw [h]
  decide

/-- C8, amended: getRecentFiles returns the files of the user sorted by
updatedAt descending with ties kept in stored (insertion) order — the
ECMAScript sort is stable — truncated to the limit; in particular for
files A, B, C with strictly increasing updatedAt, the limit-2 listing is
[C, B]. -/
theorem c8_recent_files_stable_order (s : StoreState) (u lim : Nat) :
    List.Pairwise (fun a b : MFile => b.updatedAt ≤ a.updatedAt)
      (getRecentFiles s u lim) ∧
    (∀ f ∈ getRecentFiles s u lim, f ∈ s.files ∧ f.userId = u) ∧
    (getRecentFiles s u lim).length =
      min lim (s.files.filter (fun f => f.userId == u)).length ∧
    getRecentFiles c8Scenario 1 2 = [c8fc, c8fb] := by
  refine ⟨?_, ?_, ?_, ?_⟩
  · have hsorted := List.sorted_mergeSort recentLe_trans recentLe_total
      (s.files.filter (fun f => f.userId == u))
    have hsub := List.take_sublist lim
      ((s.files.filter (fun f => f.userId == u)).mergeSort recentLe)
    have := List.Pairwise.sublist hsub hsorted
    exact this.imp (fun h => by simpa [recentLe] using h)
  · intro f hf
    have h1 : f ∈ (s.files.filter
        (fun f => f.userId == u)).mergeSort recentLe :=
      List.take_subset _ _ hf
    have h2 : f ∈ s.files.filter (fun f => f.userId == u) :=
      (List.mergeSort_perm _ recentLe).mem_iff.mp h1
    have h3 := List.mem_filter.mp h2
    exact ⟨h3.1, by simpa using h3.2⟩
  · have hlen : ((s.files.filter
        (fun f => f.userId == u)).mergeSort recentLe).length =
        (s.files.filter (fun f => f.userId == u)).length :=
      (List.mergeSort_perm _ recentLe).length_eq
    simp [getRecentFiles, List.length_take, hlen]
  · simp [getRecentFiles, c8Scenario, List.mergeSort, recentLe, c8fa,
      c8fb, c8fc]

/-- C8, witness: the membership clause of the amended statement applied
to file C of the scenario listing. -/
theorem c8_witness : c8fc ∈ c8Scenario.files ∧ c8fc.userId = 1 :=
  (c8_recent_files_stable_order c8Scenario 1 2).2.1 c8fc
    (by rw [(c8_recent_files_stable_order c8Scenario 1 2).2.2.2]
        exact List.mem_cons_self _ _)

/-- Per-user size sums split into the trashed and the active files, so
trashed records demonstrably still count. -/
theorem sum_sizes_split (u : Nat) (l : List MFile) :
    ((l.filter (fun f => f.userId == u)).map (fun f => f.size)).sum =
      ((l.filter (fun f => f.userId == u && f.isDeleted)).map
        (fun f => f.size)).sum +
      ((l.filter (fun f => f.userId == u && !f.isDeleted)).map
        (fun f => f.size)).sum := by
  induction l with
  | nil => rfl
  | cons x xs ih =>
    by_cases hu : x.userId == u
    · by_cases hd : x.isDeleted
      · simp [List.filter_cons, hu, hd, ih]
        omega
      · simp [List.filter_cons, hu, hd, ih]
        omega
    · simp [List.filter_cons, hu, ih]

/-- Patch body sent by the client when a file is moved to trash. -/
def trashFilePatch (t : Nat) : FilePatch :=
  { isDeleted := some true, deletedAt := some (some t) }

/-- Updating the file just appended to a store whose other ids all
differ: the merge hits exactly the appended record. -/
theorem updateFile_append_fresh (s : StoreState) (nf : MFile)
    (p : FilePatch) (now : Nat)
    (h : ∀ x ∈ s.files, (x.id == nf.id) = false) :
    updateFile { s with files := s.files ++ [nf] } nf.id p now =
      (some { applyFilePatch nf p with updatedAt := now },
        { s with files :=
          s.files ++ [{ applyFilePatch nf p with updatedAt := now }] }) := by
  unfold updateFile
  rw [show ({ s with files := s.files ++ [nf] } : StoreState).files
      = s.files ++ [nf] from rfl]
  rw [updateFirst_append_of_neg _ _ _ h]
  simp [updateFirst]

/-- Deleting the file just appended to a store whose other ids all
differ: the splice removes exactly the appended record. -/
theorem deleteFile_append_fresh (s : StoreState) (nf : MFile)
    (h : ∀ x ∈ s.files, (x.id == nf.id) = false) :
    (deleteFile { s with files := s.files ++ [nf] } nf.id).1.files =
      s.files ∧
    (deleteFile { s with files := s.files ++ [nf] } nf.id).2 = true := by
  unfold deleteFile
  rw [show ({ s with files := s.files ++ [nf] } : StoreState).files
      = s.files ++ [nf] from rfl]
  rw [removeFirst_append_of_neg _ _ h]
  simp [removeFirst]

/-- C9: getStorageStats sums sizes over every file record of the user —
trashed ones included, as the split shows — with percentUsed the exact
usedSpace / totalSpace ratio times 100; and along the scenario
create(size 1000) / trash / hard-delete, usedSpace goes 0, 1000, 1000,
0. -/
theorem c9_storage_stats (s : StoreState) (u now1 now2 : Nat)
    (ins : InsertFile) (hu : ins.userId = u) (hsz : ins.size = 1000)
    (h0 : (getStorageStats s u).usedSpace = 0)
    (hfresh : ∀ g ∈ s.files, g.id ≠ s.files.length + 1) :
    (∀ s' : StoreState,
      (getStorageStats s' u).percentUsed =
        ((getStorageStats s' u).usedSpace : ℚ) / (totalSpaceConst : ℚ)
          * 100 ∧
      (getStorageStats s' u).totalSpace = totalSpaceConst ∧
      (getStorageStats s' u).usedSpace =
        ((s'.files.filter (fun f => f.userId == u && f.isDeleted)).map
          (fun f => f.size)).sum +
        ((s'.files.filter (fun f => f.userId == u && !f.isDeleted)).map
          (fun f => f.size)).sum) ∧
    (getStorageStats (createFile s ins now1).2 u).usedSpace = 1000 ∧
    (getStorageStats (updateFile (createFile s ins now1).2
        (s.files.length + 1) (trashFilePatch now2) now2).2 u).usedSpace
      = 1000 ∧
    (getStorageStats (deleteFile (updateFile (createFile s ins now1).2
        (s.files.length + 1) (trashFilePatch now2) now2).2
        (s.files.length + 1)).1 u).usedSpace = 0 := by
  have h0' : ((s.files.filter (fun f => f.userId == u)).map
      (fun f => f.size)).sum = 0 := h0
  have hp : ∀ x ∈ s.files, (x.id == s.files.length + 1) = false := by
    intro x hx
    simpa using hfresh x hx
  have hused : ∀ s' : StoreState, (getStorageStats s' u).usedSpace =
      ((s'.files.filter (fun f => f.userId == u)).map
        (fun f => f.size)).sum := fun s' => rfl
  have h1 : (createFile s ins now1).2 =
      { s with files := s.files ++ [(createFile s ins now1).1] } := rfl
  have hfr : ∀ x ∈ s.files,
      (x.id == (createFile s ins now1).1.id) = false := hp
  have h2 := updateFile_append_fresh s (createFile s ins now1).1
    (trashFilePatch now2) now2 hfr
  have hid : s.files.length + 1 = (createFile s ins now1).1.id := rfl
  refine ⟨fun s' => ⟨rfl, rfl, sum_sizes_split u s'.files⟩, ?_, ?_, ?_⟩
  · simp [getStorageStats, createFile, List.filter_append, hu, hsz, h0']
  · rw [hused, h1, hid, h2]
    simp [List.filter_append, h0', applyFilePatch, trashFilePatch,
      createFile, hu, hsz]
  · rw [hused, h1, hid, h2]
    have hfr2 : ∀ x ∈ s.files,
        (x.id == ({ applyFilePatch (createFile s ins now1).1
          (trashFilePatch now2) with updatedAt := now2 } : MFile).id)
          = false := hp
    have hid2 : (createFile s ins now1).1.id =
        ({ applyFilePatch (createFile s ins now1).1
          (trashFilePatch now2) with updatedAt := now2 } : MFile).id := rfl
    rw [hid2]
    have h3 := deleteFile_append_fresh s _ hfr2
    rw [h3.1]
    exact h0'

/-- C9, witness: the scenario run from an empty store. -/
theorem c9_witness :
    (getStorageStats (createFile emptyStore
      ⟨"f.bin", "application/pdf", 1000, "pf", none, 1⟩ 0).2 1).usedSpace
      = 1000 :=
  (c9_storage_stats emptyStore 1 0 7
    ⟨"f.bin", "application/pdf", 1000, "pf", none, 1⟩ rfl rfl (by decide)
    (by decide)).2.1

end CloudVault
